import Mathlib

/-!
Verification of the control plane of the agent_main repository: the blackboard
event bus (src/backend/core/blackboard.py), the task scheduler
(src/backend/core/scheduler.py) and the collaboration quality metrics
(src/backend/core/collaboration_manager.py), embedded shallowly.

Dictionaries keyed by id are embedded as lists in insertion order; looking a
key up is List.find? on the key field, deleting a key filters it out, and
in-place mutation of the object behind a key updates the first matching entry.
Timestamps are integers (datetime arithmetic is only compared and subtracted),
and float quantities are embedded as rationals.
-/

namespace AgentMain

/-- EventType from blackboard.py, restricted to the constructors the embedded
control-plane code dispatches on (the remaining enum members never influence
the verified operations). -/
inductive EventType where
  | task_started
  | task_assigned
  | task_completed
  | task_failed
  | task_created
  | design_request
  | solution_draft_created
  | experiment_plan
  | critique_feedback
  | verification_report
  | information_update
  | model_result
  | evaluation_result
  | data_updated
  deriving DecidableEq

namespace Blackboard

/-- TaskStatus from blackboard.py. -/
inductive TaskStatus where
  | pending
  | running
  | success
  | failed
  | cancelled
  deriving DecidableEq

/-- Opaque payload values carried in event data dictionaries. -/
inductive PayloadValue where
  | str (s : String)
  | int (i : Int)
  | rat (q : ℚ)
  | null
  deriving DecidableEq

/-- TaskRequest dataclass from blackboard.py. -/
structure TaskRequest where
  task_id : String
  session_id : String
  task_type : String
  description : String
  assigned_agent : String
  priority : Int
  status : TaskStatus
  input_data : List (String × PayloadValue)
  output_data : List (String × PayloadValue)
  dependencies : List String
  created_at : Int
  started_at : Option Int
  completed_at : Option Int
  error_message : Option String
  progress : ℚ
  deriving DecidableEq

/-- BlackboardEvent dataclass from blackboard.py (fields the embedded code
reads or writes). -/
structure BlackboardEvent where
  event_id : String
  event_type : EventType
  agent_id : String
  target_agent : Option String
  data : List (String × PayloadValue)
  timestamp : Int
  priority : Int
  session_id : Option String
  deriving DecidableEq

/-- A subscriber callback: consumes the event and either returns or raises.
The exception side models a handler failure surfaced to asyncio.gather. -/
def Handler : Type := BlackboardEvent → Except String Unit

/-- Blackboard state: pending event list, bounded history, subscribers per
event type, and the task table. -/
structure BlackboardState where
  events : List BlackboardEvent
  event_history : List BlackboardEvent
  max_history : Nat
  subscribers : EventType → List Handler
  task_requests : List TaskRequest

/-- Embeds _notify_subscribers: every subscriber registered for the type of the event is
invoked once; asyncio.gather with return_exceptions collects the outcome of
each handler (normal return or raised exception) without propagating. -/
def notifySubscribers (bb : BlackboardState) (e : BlackboardEvent) :
    List (Except String Unit) :=
  (bb.subscribers e.event_type).map (fun h => h e)

/-- publish_event: append to the pending list and to the bounded history
(Python hist[-max:] keeps the last max entries, and slicing with max = 0
keeps everything), then notify subscribers. The call is total: it always
returns the new state together with the per-subscriber outcomes. -/
def publishEvent (bb : BlackboardState) (e : BlackboardEvent) :
    BlackboardState × List (Except String Unit) :=
  let hist0 := bb.event_history ++ [e]
  let hist :=
    if bb.max_history < hist0.length then
      if bb.max_history = 0 then hist0
      else hist0.drop (hist0.length - bb.max_history)
    else hist0
  ({ bb with events := bb.events ++ [e], event_history := hist },
   notifySubscribers bb e)

/-- Look a task up in the task table (dict indexing by task_id). -/
def findRequest (l : List TaskRequest) (tid : String) : Option TaskRequest :=
  l.find? (fun t => t.task_id == tid)

/-- Mutate the task object stored under a key: update the first entry whose
task_id matches. -/
def updateFirstRequest (l : List TaskRequest) (tid : String)
    (f : TaskRequest → TaskRequest) : List TaskRequest :=
  match l with
  | [] => []
  | t :: rest =>
    if t.task_id == tid then f t :: rest
    else t :: updateFirstRequest rest tid f

/-- Python dict.update on a payload dictionary: existing keys are overwritten
in place, new keys are appended. -/
def dictSet (d : List (String × PayloadValue)) (k : String) (v : PayloadValue) :
    List (String × PayloadValue) :=
  if d.any (fun p => p.1 == k) then d.map (fun p => if p.1 == k then (k, v) else p)
  else d ++ [(k, v)]

def dictUpdate (d upd : List (String × PayloadValue)) :
    List (String × PayloadValue) :=
  upd.foldl (fun acc kv => dictSet acc kv.1 kv.2) d

/-- Event type chosen by update_task_status for the status-change event. -/
def statusEventType (st : TaskStatus) : EventType :=
  match st with
  | .running => .task_started
  | .success => .task_completed
  | .failed => .task_failed
  | _ => .data_updated

def statusValue (st : TaskStatus) : String :=
  match st with
  | .pending => "pending"
  | .running => "running"
  | .success => "success"
  | .failed => "failed"
  | .cancelled => "cancelled"

/-- The field updates update_task_status applies to the task object. -/
def applyStatusUpdate (status : TaskStatus)
    (output_data : Option (List (String × PayloadValue)))
    (error_message : Option String) (progress : Option ℚ) (now : Int)
    (t : TaskRequest) : TaskRequest :=
  let t := { t with status := status }
  let t :=
    if status == TaskStatus.running && t.started_at == none then
      { t with started_at := some now }
    else if status == TaskStatus.success || status == TaskStatus.failed
        || status == TaskStatus.cancelled then
      { t with completed_at := some now }
    else t
  let t :=
    match output_data with
    | some od => if od.isEmpty then t else { t with output_data := dictUpdate t.output_data od }
    | none => t
  let t :=
    match error_message with
    | some m => if m == "" then t else { t with error_message := some m }
    | none => t
  match progress with
  | some p => { t with progress := max 0 (min 1 p) }
  | none => t

/-- update_task_status from blackboard.py: if the task id is unknown return
False; otherwise apply the requested status unconditionally together with the
timestamp/payload/progress updates, publish a status-change event, and return
True. -/
def updateTaskStatus (bb : BlackboardState) (tid : String) (status : TaskStatus)
    (output_data : Option (List (String × PayloadValue)))
    (error_message : Option String) (progress : Option ℚ)
    (now : Int) (event_uuid : String) : BlackboardState × Bool :=
  match findRequest bb.task_requests tid with
  | none => (bb, false)
  | some task =>
    let old_status := task.status
    let task1 := applyStatusUpdate status output_data error_message progress now task
    let bb1 := { bb with
      task_requests :=
        updateFirstRequest bb.task_requests tid
          (applyStatusUpdate status output_data error_message progress now) }
    let e : BlackboardEvent := {
      event_id := event_uuid
      event_type := statusEventType status
      agent_id := task.assigned_agent
      target_agent := none
      data := [("task_id", .str tid),
               ("old_status", .str (statusValue old_status)),
               ("new_status", .str (statusValue status)),
               ("progress", .rat task1.progress)]
      timestamp := now
      priority := 0
      session_id := some task.session_id }
    ((publishEvent bb1 e).1, true)

/-- Dependency check inside get_pending_tasks: a dependency blocks only when
it is present in the task table with a status other than SUCCESS. -/
def dependenciesMet (bb : BlackboardState) (t : TaskRequest) : Bool :=
  t.dependencies.all (fun dep =>
    match findRequest bb.task_requests dep with
    | some du => du.status == TaskStatus.success
    | none => true)

/-- Sort relation of get_pending_tasks: sorted(key=priority, reverse=True). -/
def requestGe (a b : TaskRequest) : Bool := decide (b.priority ≤ a.priority)

/-- get_pending_tasks from blackboard.py: all PENDING tasks passing the
optional agent filter whose dependencies are met, sorted by priority
descending (stable). -/
def getPendingTasks (bb : BlackboardState) (agent_id : Option String) :
    List TaskRequest :=
  (bb.task_requests.filter (fun t =>
      t.status == TaskStatus.pending &&
      (match agent_id with
       | none => true
       | some a => t.assigned_agent == a) &&
      dependenciesMet bb t)).mergeSort requestGe

end Blackboard

namespace Scheduler

/-- TaskPriority enum from scheduler.py. -/
inductive TaskPriority where
  | low
  | normal
  | high
  | urgent
  | critical
  deriving DecidableEq

/-- The integer value of a TaskPriority member. -/
def TaskPriority.value : TaskPriority → Nat
  | .low => 0
  | .normal => 1
  | .high => 2
  | .urgent => 3
  | .critical => 4

/-- TaskStatus enum from scheduler.py (distinct from the blackboard enum). -/
inductive TaskStatus where
  | pending
  | assigned
  | running
  | completed
  | failed
  | cancelled
  | timeout
  deriving DecidableEq

/-- The keys of an event-data dictionary that the scheduler reads. A key
mapped to none is absent from the dictionary. -/
structure EventData where
  task_id : Option String
  original_task_id : Option String
  task_type : Option String
  priority : Option Int
  dependencies : Option (List String)
  max_retries : Option Int
  timeout_seconds : Option Int
  status : Option String
  error_message : Option String
  deriving DecidableEq

/-- ScheduleTask dataclass from scheduler.py. -/
structure ScheduleTask where
  task_id : String
  task_type : String
  priority : TaskPriority
  event_data : EventData
  created_at : Int
  assigned_agent : Option String
  status : TaskStatus
  dependencies : List String
  max_retries : Int
  retry_count : Int
  timeout_seconds : Int
  error_message : Option String
  started_at : Option Int
  completed_at : Option Int
  deriving DecidableEq

/-- ScheduleTask.is_ready: pending with an empty dependency list. -/
def ScheduleTask.is_ready (t : ScheduleTask) : Bool :=
  t.status == TaskStatus.pending && t.dependencies.isEmpty

/-- ScheduleTask.is_expired at the given current time. -/
def ScheduleTask.is_expired (t : ScheduleTask) (now : Int) : Bool :=
  match t.started_at with
  | some st => t.status == TaskStatus.running && decide (now - st > t.timeout_seconds)
  | none => false

/-- ScheduleTask.can_retry: retries remaining and status FAILED (note: not
TIMEOUT). -/
def ScheduleTask.can_retry (t : ScheduleTask) : Bool :=
  decide (t.retry_count < t.max_retries) && t.status == TaskStatus.failed

/-- AgentCapability dataclass from scheduler.py. -/
structure AgentCapability where
  agent_name : String
  agent_type : String
  max_concurrent_tasks : Int
  current_load : Int
  success_rate : ℚ
  avg_processing_time : ℚ
  last_active : Option Int
  is_available : Bool
  deriving DecidableEq

/-- An event the scheduler publishes on the blackboard (create_event followed
by publish_event in _assign_task). -/
structure SchedEvent where
  event_type : EventType
  source_agent : String
  data : EventData
  target_agents : List String
  priority : Nat
  deriving DecidableEq

/-- The SystemScheduler state: the four task dictionaries, the capability
table, the event-subscription map, the load-balancing flag, and the events
published so far. -/
structure SchedState where
  pending_tasks : List ScheduleTask
  running_tasks : List ScheduleTask
  completed_tasks : List ScheduleTask
  failed_tasks : List ScheduleTask
  agent_capabilities : List AgentCapability
  event_subscriptions : List (EventType × List String)
  load_balancing_enabled : Bool
  published_events : List SchedEvent
  deriving DecidableEq

/-- Dict lookup in a task dictionary. -/
def findTask (l : List ScheduleTask) (tid : String) : Option ScheduleTask :=
  l.find? (fun t => t.task_id == tid)

/-- Dict deletion in a task dictionary. -/
def removeTask (l : List ScheduleTask) (tid : String) : List ScheduleTask :=
  l.filter (fun t => t.task_id != tid)

/-- Dict insertion in a task dictionary (all call sites insert a fresh key). -/
def insertTask (l : List ScheduleTask) (t : ScheduleTask) : List ScheduleTask :=
  removeTask l t.task_id ++ [t]

/-- agent_capabilities.get(name). -/
def lookupCap (caps : List AgentCapability) (name : String) :
    Option AgentCapability :=
  caps.find? (fun c => c.agent_name == name)

/-- In-place mutation of the capability object stored under a name: update the
first matching entry. -/
def updateCap (caps : List AgentCapability) (name : String)
    (f : AgentCapability → AgentCapability) : List AgentCapability :=
  match caps with
  | [] => []
  | c :: rest =>
    if c.agent_name == name then f c :: rest
    else c :: updateCap rest name f

/-- Embeds _determine_task_event_type: the task_type_mapping dictionary with default
TASK_CREATED. -/
def determineTaskEventType (t : ScheduleTask) : EventType :=
  if t.task_type == "research_request" then .task_created
  else if t.task_type == "design_request" then .design_request
  else if t.task_type == "solution_draft" then .solution_draft_created
  else if t.task_type == "experiment_plan" then .experiment_plan
  else if t.task_type == "critique_feedback" then .critique_feedback
  else if t.task_type == "verification_report" then .verification_report
  else if t.task_type == "information_update" then .information_update
  else if t.task_type == "model_result" then .model_result
  else if t.task_type == "evaluation_result" then .evaluation_result
  else .task_created

/-- event_subscriptions membership and indexing. -/
def subscriptionsFor (s : SchedState) (et : EventType) : Option (List String) :=
  (s.event_subscriptions.find? (fun p => p.1 == et)).map Prod.snd

/-- The availability filter of _find_suitable_agent: the capability exists, is
available, and has spare capacity. -/
def agentPred (s : SchedState) (name : String) : Bool :=
  match lookupCap s.agent_capabilities name with
  | some c => c.is_available && decide (c.current_load < c.max_concurrent_tasks)
  | none => false

def loadOf (s : SchedState) (name : String) : Int :=
  match lookupCap s.agent_capabilities name with
  | some c => c.current_load
  | none => 0

def rateOf (s : SchedState) (name : String) : ℚ :=
  match lookupCap s.agent_capabilities name with
  | some c => c.success_rate
  | none => 0

/-- Python min(list, key): keep the first element attaining the minimum. -/
def pickMinBy (key : String → Int) (hd : String) (tl : List String) : String :=
  tl.foldl (fun best x => if key x < key best then x else best) hd

/-- Python max(list, key): keep the first element attaining the maximum. -/
def pickMaxBy (key : String → ℚ) (hd : String) (tl : List String) : String :=
  tl.foldl (fun best x => if key best < key x then x else best) hd

/-- Embeds _find_suitable_agent: candidates subscribed to the event type of the task,
filtered by availability and spare capacity, then least-load (or best
success rate when load balancing is disabled). -/
def findSuitableAgent (s : SchedState) (t : ScheduleTask) : Option String :=
  match subscriptionsFor s (determineTaskEventType t) with
  | none => none
  | some candidates =>
    match candidates.filter (agentPred s) with
    | [] => none
    | a :: rest =>
      if s.load_balancing_enabled then some (pickMinBy (loadOf s) a rest)
      else some (pickMaxBy (rateOf s) a rest)

/-- Modelled from the spec: Blackboard.create_event is called by the scheduler
but is not defined in the sources (only its callers are). Per the Event Bus
section of the spec, creating an event assigns id/timestamp if absent and the
event is then delivered; we model it as plain construction of the event
record, which _assign_task then publishes, with no failure path. -/
def createEvent (et : EventType) (src : String) (d : EventData)
    (targets : List String) (prio : Nat) : SchedEvent :=
  { event_type := et, source_agent := src, data := d,
    target_agents := targets, priority := prio }

/-- Embeds _assign_task: mark the task assigned and started, move it from the pending
to the running dictionary, bump the load of the chosen agent, and publish the
assignment event addressed to the agent. -/
def assignTask (s : SchedState) (t : ScheduleTask) (agent : String) (now : Int) :
    SchedState :=
  let t1 := { t with
    assigned_agent := some agent
    status := TaskStatus.assigned
    started_at := some now }
  { s with
    running_tasks := insertTask s.running_tasks t1
    pending_tasks := removeTask s.pending_tasks t.task_id
    agent_capabilities := updateCap s.agent_capabilities agent
      (fun c => { c with current_load := c.current_load + 1, last_active := some now })
    published_events := s.published_events ++
      [createEvent (determineTaskEventType t) "SystemScheduler" t.event_data
        [agent] t.priority.value] }

/-- Sort relation of _process_pending_tasks:
sorted(key=(priority.value, created_at), reverse=True), i.e. descending
lexicographic order on (priority value, creation time), stable. -/
def taskSortGe (a b : ScheduleTask) : Bool :=
  decide (b.priority.value < a.priority.value ∨
    (a.priority.value = b.priority.value ∧ b.created_at ≤ a.created_at))

def sortedPending (s : SchedState) : List ScheduleTask :=
  s.pending_tasks.mergeSort taskSortGe

/-- One iteration of the loop in _process_pending_tasks. -/
def processOneTask (st : SchedState) (t : ScheduleTask) (now : Int) :
    SchedState :=
  if t.is_ready then
    match findSuitableAgent st t with
    | some a => assignTask st t a now
    | none => st
  else st

/-- Embeds _process_pending_tasks: iterate over the snapshot of pending tasks in
sorted order, assigning each ready task for which a suitable agent exists. -/
def processPendingTasks (s : SchedState) (now : Int) : SchedState :=
  if s.pending_tasks.isEmpty then s
  else (sortedPending s).foldl (fun st t => processOneTask st t now) s

/-- Body of the loop in _check_timeout_tasks for one expired task. -/
def timeoutOne (now : Int) (st : SchedState) (t : ScheduleTask) : SchedState :=
  let t1 := { t with
    status := TaskStatus.timeout
    completed_at := some now
    error_message := some "任务执行超时" }
  let caps :=
    match t.assigned_agent with
    | some a => updateCap st.agent_capabilities a
        (fun c => { c with current_load := max 0 (c.current_load - 1) })
    | none => st.agent_capabilities
  { st with
    agent_capabilities := caps
    failed_tasks := insertTask st.failed_tasks t1
    running_tasks := removeTask st.running_tasks t.task_id }

/-- Embeds _check_timeout_tasks: mark every expired running task TIMEOUT, release its
worker slot, and move it into the failed dictionary. -/
def checkTimeoutTasks (s : SchedState) (now : Int) : SchedState :=
  (s.running_tasks.filter (fun t => t.is_expired now)).foldl (timeoutOne now) s

/-- Body of the loop in _retry_failed_tasks for one retryable task. -/
def retryOne (st : SchedState) (t : ScheduleTask) : SchedState :=
  let t1 := { t with
    status := TaskStatus.pending
    assigned_agent := none
    started_at := none
    retry_count := t.retry_count + 1
    error_message := none }
  { st with
    pending_tasks := insertTask st.pending_tasks t1
    failed_tasks := removeTask st.failed_tasks t.task_id }

/-- Embeds _retry_failed_tasks: reset every task of the failed dictionary whose
can_retry holds back to PENDING. -/
def retryFailedTasks (s : SchedState) : SchedState :=
  (s.failed_tasks.filter (fun t => t.can_retry)).foldl retryOne s

/-- Embeds _resolve_task_dependencies: drop the completed task id from the dependency
list of every pending task (list.remove of the first occurrence, guarded by
membership). -/
def resolveTaskDependencies (s : SchedState) (completed_task_id : String) :
    SchedState :=
  let upd := fun (t : ScheduleTask) =>
    { t with dependencies := t.dependencies.erase completed_task_id }
  { s with pending_tasks := s.pending_tasks.map upd }

/-- Python string truthiness for data.get: an empty string counts as absent. -/
def truthy (o : Option String) : Option String :=
  match o with
  | some s => if s == "" then none else some s
  | none => none

/-- data.get("task_id") or data.get("original_task_id"), with the falsy check
of _handle_task_completed. -/
def extractTaskId (d : EventData) : Option String :=
  match truthy d.task_id with
  | some tid => some tid
  | none => truthy d.original_task_id

/-- Embeds _handle_task_completed: find the running task; mark it COMPLETED or FAILED
according to data["status"], stamp completion, release the worker slot, remove
it from the running dictionary, and then resolve dependencies of pending tasks
on it — in both the success and the failure branch. -/
def handleTaskCompleted (s : SchedState) (d : EventData) (now : Int) :
    SchedState :=
  match extractTaskId d with
  | none => s
  | some tid =>
    match findTask s.running_tasks tid with
    | none => s
    | some task =>
      let isFailed := d.status == some "failed"
      let task1 :=
        if isFailed then
          { task with
            status := TaskStatus.failed
            error_message := some (d.error_message.getD "未知错误")
            completed_at := some now }
        else
          { task with status := TaskStatus.completed, completed_at := some now }
      let s1 :=
        if isFailed then { s with failed_tasks := insertTask s.failed_tasks task1 }
        else { s with completed_tasks := insertTask s.completed_tasks task1 }
      let caps :=
        match task.assigned_agent with
        | some a => updateCap s1.agent_capabilities a
            (fun c => { c with current_load := max 0 (c.current_load - 1) })
        | none => s1.agent_capabilities
      let s2 := { s1 with
        agent_capabilities := caps
        running_tasks := removeTask s1.running_tasks tid }
      resolveTaskDependencies s2 tid

/-- Embeds _safe_convert_priority on an integer priority value. -/
def safeConvertPriority (p : Int) : TaskPriority :=
  if p ≤ 0 then .low
  else if p == 1 then .normal
  else if p == 2 then .high
  else if p == 3 then .urgent
  else .critical

/-- Embeds _handle_task_created: build a ScheduleTask from the event data with the
dataclass defaults for absent keys and add it to the pending dictionary in
status PENDING. No field of the submission is validated. -/
def handleTaskCreated (s : SchedState) (d : EventData) (fresh_uuid : String)
    (now : Int) : SchedState :=
  let task : ScheduleTask := {
    task_id := d.task_id.getD ("task_" ++ fresh_uuid)
    task_type := d.task_type.getD "general"
    priority := safeConvertPriority (d.priority.getD 1)
    event_data := d
    created_at := now
    assigned_agent := none
    status := TaskStatus.pending
    dependencies := d.dependencies.getD []
    max_retries := d.max_retries.getD 3
    retry_count := 0
    timeout_seconds := d.timeout_seconds.getD 300
    error_message := none
    started_at := none
    completed_at := none }
  { s with pending_tasks := insertTask s.pending_tasks task }

/-- submit_task: generate a fresh task id, build the TASK_CREATED event data
(the literal merge gives the payload keys of the caller precedence over the task_id,
task_type and priority entries), and return the fresh id. No validation is
performed and no submission is ever rejected. The event is handed to
create_event (modelled from the spec, see createEvent) and its data reaches
_handle_task_created. -/
def submitTask (task_type : String) (d : EventData) (priority : Int)
    (fresh_uuid : String) : String × EventData :=
  let merged : EventData := { d with
    task_id := some (d.task_id.getD fresh_uuid)
    task_type := some (d.task_type.getD task_type)
    priority := some (d.priority.getD priority) }
  (fresh_uuid, merged)

end Scheduler

namespace Collaboration

/-- CollaborationNode dataclass from collaboration_manager.py. -/
structure CollaborationNode where
  agent_name : String
  role : String
  capabilities : List String
  contribution_weight : ℚ
  trust_score : ℚ
  communication_efficiency : ℚ
  deriving DecidableEq

/-- One entry of task_decomposition: a subtask dictionary; only its id and the
estimated_duration key (absent when none) matter to the quality metrics. -/
structure SubtaskSpec where
  subtask_id : String
  estimated_duration : Option ℚ
  deriving DecidableEq

/-- The fields of CollaborationTask read by _calculate_collaboration_quality.
start_time and end_time are in seconds; intermediate_results maps a completed
subtask id to its payload. -/
structure CollaborationTask where
  collaboration_id : String
  participants : List CollaborationNode
  task_decomposition : List SubtaskSpec
  intermediate_results : List (String × Blackboard.PayloadValue)
  start_time : ℚ
  end_time : ℚ
  deriving DecidableEq

/-- The quality_metrics dictionary computed for a completed collaboration. -/
structure QualityMetrics where
  time_efficiency : ℚ
  participant_satisfaction : ℚ
  result_completeness : ℚ
  communication_efficiency : ℚ
  overall_quality : ℚ
  deriving DecidableEq

/-- Embeds _calculate_collaboration_quality from collaboration_manager.py. -/
def calculateCollaborationQuality (ct : CollaborationTask) : QualityMetrics :=
  let duration := ct.end_time - ct.start_time
  let estimated_duration :=
    (ct.task_decomposition.map (fun st => st.estimated_duration.getD 60)).sum
  let time_efficiency :=
    if 0 < duration then min (estimated_duration / duration) 1 else 0
  let participant_satisfaction :=
    (ct.participants.map (fun p => p.trust_score)).sum / (ct.participants.length : ℚ)
  let result_completeness :=
    if ct.task_decomposition.isEmpty then 1
    else (ct.intermediate_results.length : ℚ) / (ct.task_decomposition.length : ℚ)
  let communication_efficiency :=
    (ct.participants.map (fun p => p.communication_efficiency)).sum /
      (ct.participants.length : ℚ)
  let overall_quality :=
    (time_efficiency + participant_satisfaction + result_completeness +
      communication_efficiency) / 4
  { time_efficiency := time_efficiency
    participant_satisfaction := participant_satisfaction
    result_completeness := result_completeness
    communication_efficiency := communication_efficiency
    overall_quality := overall_quality }

/-- The arithmetic mean of a list of rationals, as the spec states the
averaged metrics. -/
def average (l : List ℚ) : ℚ := l.sum / (l.length : ℚ)

end Collaboration

namespace Scheduler

theorem findTask_removeTask_self (l : List ScheduleTask) (tid : String) :
    findTask (removeTask l tid) tid = none := by
  apply List.find?_eq_none.mpr
  intro t ht
  have h2 := (List.mem_filter.mp ht).2
  simpa using h2

theorem findTask_insertTask_self (l : List ScheduleTask) (t : ScheduleTask)
    (tid : String) (h : t.task_id = tid) :
    findTask (insertTask l t) tid = some t := by
  subst h
  induction l with
  | nil => simp [insertTask, removeTask, findTask, List.find?]
  | cons c rest ih =>
    by_cases hc : c.task_id = t.task_id
    · simpa [insertTask, removeTask, hc] using ih
    · simp only [insertTask, removeTask, List.filter] at ih ⊢
      have hbn : (c.task_id != t.task_id) = true := by simp [hc]
      rw [hbn]
      simp only [findTask, List.find?, List.cons_append] at ih ⊢
      have hbe : (c.task_id == t.task_id) = false := by simp [hc]
      rw [hbe]
      exact ih

theorem handleTaskCompleted_not_running (s : SchedState) (d : EventData)
    (now : Int) (tid : String) (hid : extractTaskId d = some tid)
    (hnone : findTask s.running_tasks tid = none) :
    handleTaskCompleted s d now = s := by
  simp [handleTaskCompleted, hid, hnone]

/-- Claim C7: handling a completion report for the same task id twice is
idempotent — the second report finds the task gone from the running
dictionary and leaves the whole scheduler state (task queues, worker loads,
published events) unchanged. -/
theorem handle_task_completed_idempotent (s : SchedState) (d : EventData)
    (now now2 : Int) :
    handleTaskCompleted (handleTaskCompleted s d now) d now2 =
      handleTaskCompleted s d now := by
  cases hid : extractTaskId d with
  | none => simp [handleTaskCompleted, hid]
  | some tid =>
    cases hf : findTask s.running_tasks tid with
    | none => simp [handleTaskCompleted, hid, hf]
    | some task =>
      have hrun : (handleTaskCompleted s d now).running_tasks =
          removeTask s.running_tasks tid := by
        simp only [handleTaskCompleted, hid, hf]
        rcases hst : d.status == some "failed" with _ | _ <;>
          rcases task.assigned_agent with _ | a <;>
            simp [resolveTaskDependencies, hst]
      apply handleTaskCompleted_not_running _ _ _ tid hid
      rw [hrun]
      exact findTask_removeTask_self _ _

end Scheduler

namespace Blackboard

theorem applyStatusUpdate_status (status : TaskStatus)
    (od : Option (List (String × PayloadValue))) (em : Option String)
    (pr : Option ℚ) (now : Int) (t : TaskRequest) :
    (applyStatusUpdate status od em pr now t).status = status := by
  unfold applyStatusUpdate
  rcases od with _ | l <;> rcases em with _ | m <;> rcases pr with _ | p <;>
    dsimp only <;> (repeat' split) <;> rfl

theorem applyStatusUpdate_task_id (status : TaskStatus)
    (od : Option (List (String × PayloadValue))) (em : Option String)
    (pr : Option ℚ) (now : Int) (t : TaskRequest) :
    (applyStatusUpdate status od em pr now t).task_id = t.task_id := by
  unfold applyStatusUpdate
  rcases od with _ | l <;> rcases em with _ | m <;> rcases pr with _ | p <;>
    dsimp only <;> (repeat' split) <;> rfl

theorem findRequest_updateFirstRequest (l : List TaskRequest) (tid : String)
    (f : TaskRequest → TaskRequest) (hf : ∀ t, (f t).task_id = t.task_id) :
    findRequest (updateFirstRequest l tid f) tid =
      (findRequest l tid).map f := by
  induction l with
  | nil => rfl
  | cons t rest ih =>
    by_cases h : t.task_id = tid
    · have hb : (t.task_id == tid) = true := by simp [h]
      have hb2 : ((f t).task_id == tid) = true := by simp [hf, h]
      simp [updateFirstRequest, findRequest, List.find?, hb, hb2]
    · have hb : (t.task_id == tid) = false := by simp [h]
      simp only [updateFirstRequest, hb, if_false, Bool.false_eq_true]
      simp only [findRequest, List.find?, hb] at ih ⊢
      exact ih

/-- A concrete blackboard fixture: a single freshly created task, still
PENDING, as the tests build with create_task_request. -/
def bbTask1 : TaskRequest :=
  { task_id := "t1", session_id := "s1", task_type := "verification",
    description := "verify feasibility", assigned_agent := "verification_agent",
    priority := 5, status := .pending, input_data := [], output_data := [],
    dependencies := [], created_at := 0, started_at := none,
    completed_at := none, error_message := none, progress := 0 }

def bbState1 : BlackboardState :=
  { events := [], event_history := [], max_history := 1000,
    subscribers := fun _ => [], task_requests := [bbTask1] }

/-- Counterexample to claim C2: update_task_status moves a PENDING task
directly to SUCCESS in one call — the undocumented edge Pending→Success is
taken and the call reports success. -/
theorem pending_to_success_direct_cex :
    bbTask1.status = TaskStatus.pending ∧
    (updateTaskStatus bbState1 "t1" .success none none none 10 "e1").2 = true ∧
    (findRequest
        (updateTaskStatus bbState1 "t1" .success none none none 10 "e1").1.task_requests
        "t1").map (fun t => (t.status, t.completed_at)) =
      some (TaskStatus.success, some 10) := by
  decide

/-- Claim C2 (amended): update_task_status performs no transition validation —
whenever the task id exists, the requested status is applied unconditionally,
whatever the previous status was; in particular a task can move directly from
Pending to Success. -/
theorem update_task_status_unvalidated (bb : BlackboardState) (tid : String)
    (st : TaskStatus) (od : Option (List (String × PayloadValue)))
    (em : Option String) (pr : Option ℚ) (now : Int) (uuid : String)
    (task : TaskRequest)
    (hfind : findRequest bb.task_requests tid = some task) :
    (updateTaskStatus bb tid st od em pr now uuid).2 = true ∧
    findRequest (updateTaskStatus bb tid st od em pr now uuid).1.task_requests tid =
      some (applyStatusUpdate st od em pr now task) ∧
    (applyStatusUpdate st od em pr now task).status = st := by
  refine ⟨?_, ?_, applyStatusUpdate_status st od em pr now task⟩
  · simp [updateTaskStatus, hfind]
  · simp only [updateTaskStatus, hfind]
    have hupd := findRequest_updateFirstRequest bb.task_requests tid
      (applyStatusUpdate st od em pr now)
      (fun t => applyStatusUpdate_task_id st od em pr now t)
    simp [publishEvent, hupd, hfind]

/-- Witness for the amended theorem of claim C2 at the concrete fixture. -/
theorem update_task_status_unvalidated_witness :
    findRequest bbState1.task_requests "t1" = some bbTask1 ∧
    ((updateTaskStatus bbState1 "t1" .success none none none 10 "e1").2 = true ∧
     findRequest
        (updateTaskStatus bbState1 "t1" .success none none none 10 "e1").1.task_requests
        "t1" = some (applyStatusUpdate .success none none none 10 bbTask1) ∧
     (applyStatusUpdate .success none none none 10 bbTask1).status = .success) :=
  ⟨by decide,
   update_task_status_unvalidated bbState1 "t1" .success none none none 10 "e1"
     bbTask1 (by decide)⟩

theorem dependenciesMet_iff (bb : BlackboardState) (t : TaskRequest) :
    dependenciesMet bb t = true ↔
      ∀ dep ∈ t.dependencies, ∀ u,
        findRequest bb.task_requests dep = some u →
        u.status = TaskStatus.success := by
  unfold dependenciesMet
  rw [List.all_eq_true]
  refine forall₂_congr ?_
  intro dep _
  cases hfd : findRequest bb.task_requests dep <;> simp [hfd]

/-- Claim C10: a task appears in get_pending_tasks exactly when it is in the
table, PENDING, passes the agent filter, and every dependency that exists in
the table has status SUCCESS — so a dependency id naming an unknown task is
treated as satisfied and does not block. -/
theorem get_pending_tasks_membership (bb : BlackboardState)
    (aid : Option String) (t : TaskRequest) :
    t ∈ getPendingTasks bb aid ↔
      (t ∈ bb.task_requests ∧ t.status = TaskStatus.pending ∧
       (∀ a, aid = some a → t.assigned_agent = a) ∧
       (∀ dep ∈ t.dependencies, ∀ u,
          findRequest bb.task_requests dep = some u →
          u.status = TaskStatus.success)) := by
  unfold getPendingTasks
  rw [(List.mergeSort_perm _ requestGe).mem_iff, List.mem_filter]
  simp only [Bool.and_eq_true, beq_iff_eq]
  constructor
  · rintro ⟨hmem, ⟨hst, hag⟩, hdep⟩
    refine ⟨hmem, hst, ?_, (dependenciesMet_iff bb t).mp hdep⟩
    intro a ha
    subst ha
    simpa using hag
  · rintro ⟨hmem, hst, hag, hdep⟩
    refine ⟨hmem, ⟨hst, ?_⟩, (dependenciesMet_iff bb t).mpr hdep⟩
    cases aid with
    | none => rfl
    | some a => simpa using hag a rfl

/-- Claim C8: publish_event is total — it never fails, whatever the
subscribers do. Every subscriber registered for the type of the event receives
exactly one invocation, and the outcome at position i is the handler at
position i applied to the event, independent of any failure of other handlers; the event is
appended to the pending list and survives at the end of the (bounded) event
history. -/
theorem publish_event_total_delivery (bb : BlackboardState)
    (e : BlackboardEvent) :
    (publishEvent bb e).2 = (bb.subscribers e.event_type).map (fun h => h e) ∧
    (publishEvent bb e).2.length = (bb.subscribers e.event_type).length ∧
    (publishEvent bb e).1.events = bb.events ++ [e] ∧
    (publishEvent bb e).1.event_history.getLast? = some e := by
  refine ⟨rfl, ?_, rfl, ?_⟩
  · simp [publishEvent, notifySubscribers]
  · show (let hist0 := bb.event_history ++ [e]
          if bb.max_history < hist0.length then
            if bb.max_history = 0 then hist0
            else hist0.drop (hist0.length - bb.max_history)
          else hist0).getLast? = some e
    dsimp only
    split
    · split
      · exact List.getLast?_concat bb.event_history
      · rename_i hlt hz
        have hle : (bb.event_history ++ [e]).length - bb.max_history ≤
            bb.event_history.length := by
          simp only [List.length_append, List.length_singleton]
          omega
        rw [List.drop_append_of_le_length hle]
        exact List.getLast?_concat _
    · exact List.getLast?_concat bb.event_history

end Blackboard

namespace Collaboration

/-- Claim C9: for a completed collaboration with at least one participant, at
least one subtask, and positive duration, the quality metrics are exactly the
formulas of the spec: capped time efficiency, average trust, completed-over-total
subtasks, average communication efficiency, and the arithmetic mean of the
four as overall quality. -/
theorem collaboration_quality_formulas (ct : CollaborationTask)
    (hdur : ct.start_time < ct.end_time)
    (_hp : ct.participants ≠ [])
    (hd : ct.task_decomposition ≠ []) :
    (calculateCollaborationQuality ct).time_efficiency =
      min ((ct.task_decomposition.map (fun st => st.estimated_duration.getD 60)).sum /
        (ct.end_time - ct.start_time)) 1 ∧
    (calculateCollaborationQuality ct).participant_satisfaction =
      average (ct.participants.map (fun p => p.trust_score)) ∧
    (calculateCollaborationQuality ct).result_completeness =
      (ct.intermediate_results.length : ℚ) / (ct.task_decomposition.length : ℚ) ∧
    (calculateCollaborationQuality ct).communication_efficiency =
      average (ct.participants.map (fun p => p.communication_efficiency)) ∧
    (calculateCollaborationQuality ct).overall_quality =
      ((calculateCollaborationQuality ct).time_efficiency +
       (calculateCollaborationQuality ct).participant_satisfaction +
       (calculateCollaborationQuality ct).result_completeness +
       (calculateCollaborationQuality ct).communication_efficiency) / 4 := by
  have h1 : (0 : ℚ) < ct.end_time - ct.start_time := by linarith
  have h2 : ct.task_decomposition.isEmpty = false := by
    simp [List.isEmpty_iff, hd]
  simp [calculateCollaborationQuality, h1, h2, average, List.length_map]

/-- Concrete collaboration fixture for the C9 witness: two participants, two
subtasks of which one finished, 100 seconds of work against 80 estimated. -/
def collabFix : CollaborationTask :=
  { collaboration_id := "collab_1"
    participants :=
      [{ agent_name := "a1", role := "leader", capabilities := [],
         contribution_weight := 1, trust_score := 4/5,
         communication_efficiency := 9/10 },
       { agent_name := "a2", role := "specialist", capabilities := [],
         contribution_weight := 1, trust_score := 3/5,
         communication_efficiency := 7/10 }]
    task_decomposition :=
      [{ subtask_id := "st1", estimated_duration := some 50 },
       { subtask_id := "st2", estimated_duration := none }]
    intermediate_results := [("st1", .str "done")]
    start_time := 0
    end_time := 100 }

/-- Witness for the theorem of claim C9 at the concrete fixture. -/
theorem collaboration_quality_formulas_witness :
    (collabFix.start_time < collabFix.end_time ∧
     collabFix.participants ≠ [] ∧
     collabFix.task_decomposition ≠ []) ∧
    ((calculateCollaborationQuality collabFix).time_efficiency =
      min ((collabFix.task_decomposition.map
          (fun st => st.estimated_duration.getD 60)).sum /
        (collabFix.end_time - collabFix.start_time)) 1 ∧
     (calculateCollaborationQuality collabFix).participant_satisfaction =
      average (collabFix.participants.map (fun p => p.trust_score)) ∧
     (calculateCollaborationQuality collabFix).result_completeness =
      (collabFix.intermediate_results.length : ℚ) /
        (collabFix.task_decomposition.length : ℚ) ∧
     (calculateCollaborationQuality collabFix).communication_efficiency =
      average (collabFix.participants.map (fun p => p.communication_efficiency)) ∧
     (calculateCollaborationQuality collabFix).overall_quality =
      ((calculateCollaborationQuality collabFix).time_efficiency +
       (calculateCollaborationQuality collabFix).participant_satisfaction +
       (calculateCollaborationQuality collabFix).result_completeness +
       (calculateCollaborationQuality collabFix).communication_efficiency) / 4) :=
  ⟨by refine ⟨by norm_num [collabFix], by simp [collabFix], by simp [collabFix]⟩,
   collaboration_quality_formulas collabFix (by norm_num [collabFix])
     (by simp [collabFix]) (by simp [collabFix])⟩

end Collaboration

namespace Scheduler

/-- An event-data dictionary with none of the scheduler keys present. -/
def emptyData : EventData :=
  { task_id := none, original_task_id := none, task_type := none,
    priority := none, dependencies := none, max_retries := none,
    timeout_seconds := none, status := none, error_message := none }

/-- One registered agent with spare capacity. -/
def capA : AgentCapability :=
  { agent_name := "agent1", agent_type := "worker",
    max_concurrent_tasks := 8, current_load := 1, success_rate := 1,
    avg_processing_time := 0, last_active := none, is_available := true }

/-- Task A: running, assigned to agent1. -/
def taskA : ScheduleTask :=
  { task_id := "A", task_type := "general", priority := .normal,
    event_data := emptyData, created_at := 0,
    assigned_agent := some "agent1", status := .running, dependencies := [],
    max_retries := 3, retry_count := 0, timeout_seconds := 300,
    error_message := none, started_at := some 0, completed_at := none }

/-- Task B: pending and blocked on A. -/
def taskB : ScheduleTask :=
  { task_id := "B", task_type := "general", priority := .normal,
    event_data := emptyData, created_at := 1, assigned_agent := none,
    status := .pending, dependencies := ["A"], max_retries := 3,
    retry_count := 0, timeout_seconds := 300, error_message := none,
    started_at := none, completed_at := none }

/-- Task B after A has been resolved out of its dependency list. -/
def taskBFree : ScheduleTask :=
  { taskB with dependencies := [] }

/-- Scheduler fixture: A running on agent1, B pending behind A. -/
def schedFix : SchedState :=
  { pending_tasks := [taskB], running_tasks := [taskA],
    completed_tasks := [], failed_tasks := [],
    agent_capabilities := [capA],
    event_subscriptions := [(.task_created, ["agent1"])],
    load_balancing_enabled := true, published_events := [] }

/-- A completion event reporting that task A failed. -/
def failData : EventData :=
  { emptyData with task_id := some "A", status := some "failed" }

/-- Claim C1 (amended): whenever a completion report (success or failure
alike) is handled for a task found in the running dictionary, its id is
erased from the dependency list of every pending task. Readiness tests only
emptiness of the dependency list, so a dependency that ends Failed also
unblocks its dependents. -/
theorem completion_resolves_dependencies_regardless_of_outcome
    (s : SchedState) (d : EventData) (now : Int) (tid : String)
    (task : ScheduleTask) (hid : extractTaskId d = some tid)
    (hf : findTask s.running_tasks tid = some task) :
    (handleTaskCompleted s d now).pending_tasks =
      s.pending_tasks.map
        (fun t => { t with dependencies := t.dependencies.erase tid }) := by
  simp only [handleTaskCompleted, hid, hf]
  rcases hst : d.status == some "failed" with _ | _ <;>
    rcases task.assigned_agent with _ | a <;>
      simp [resolveTaskDependencies, hst]

/-- Witness for the amended theorem of claim C1: handling the failure report of
task A rewrites the dependency list of task B from ["A"] to []. -/
theorem completion_resolves_dependencies_witness :
    (extractTaskId failData = some "A" ∧
     findTask schedFix.running_tasks "A" = some taskA) ∧
    (handleTaskCompleted schedFix failData 100).pending_tasks =
      schedFix.pending_tasks.map
        (fun t => { t with dependencies := t.dependencies.erase "A" }) :=
  ⟨⟨by decide, by decide⟩,
   completion_resolves_dependencies_regardless_of_outcome schedFix failData 100
     "A" taskA (by decide) (by decide)⟩

/-- Counterexample to claim C1: task A fails (terminally, in the report),
yet handling the failure report makes its dependent B ready, and the next
scheduling pass assigns B to a worker — B runs although its dependency never
reached a success status. -/
theorem failed_dependency_unblocks_cex :
    ((findTask (handleTaskCompleted schedFix failData 100).failed_tasks "A").map
        (fun t => t.status) = some TaskStatus.failed) ∧
    ((findTask (handleTaskCompleted schedFix failData 100).pending_tasks "B").map
        (fun t => t.is_ready) = some true) ∧
    ((findTask (processPendingTasks
          (handleTaskCompleted schedFix failData 100) 101).running_tasks
        "B").map (fun t => t.status) = some TaskStatus.assigned) := by
  have hpend : (handleTaskCompleted schedFix failData 100).pending_tasks =
      [taskBFree] := by decide
  have hsort : sortedPending (handleTaskCompleted schedFix failData 100) =
      [taskBFree] := by
    unfold sortedPending
    rw [hpend]
    simp [List.mergeSort]
  have hproc : processPendingTasks (handleTaskCompleted schedFix failData 100) 101 =
      processOneTask (handleTaskCompleted schedFix failData 100) taskBFree 101 := by
    unfold processPendingTasks
    rw [hpend, hsort]
    rfl
  refine ⟨by decide, by decide, ?_⟩
  rw [hproc]
  decide

/-- Claim C3 fixture: a running task with a 10-second timeout, started at 0,
with all 3 retries remaining. -/
def taskT : ScheduleTask :=
  { task_id := "T", task_type := "general", priority := .normal,
    event_data := emptyData, created_at := 0,
    assigned_agent := some "agent1", status := .running, dependencies := [],
    max_retries := 3, retry_count := 0, timeout_seconds := 10,
    error_message := none, started_at := some 0, completed_at := none }

def timeoutFix : SchedState :=
  { pending_tasks := [], running_tasks := [taskT],
    completed_tasks := [], failed_tasks := [],
    agent_capabilities := [capA],
    event_subscriptions := [(.task_created, ["agent1"])],
    load_balancing_enabled := true, published_events := [] }

/-- Claim C3 (code bug): the timeout sweep marks the expired task TIMEOUT and
hands it to the failed dictionary, but can_retry accepts only status FAILED,
so the retry sweep is the identity on it — a TimedOut task with retries
remaining (retry_count 0 < max_retries 3) is never reset to Pending,
contradicting the retry-sweep description of the spec. -/
theorem timeout_tasks_never_retried :
    taskT.retry_count < taskT.max_retries ∧
    ((findTask (checkTimeoutTasks timeoutFix 100).failed_tasks "T").map
        (fun t => (t.status, t.retry_count, t.can_retry)) =
      some (TaskStatus.timeout, 0, false)) ∧
    retryFailedTasks (checkTimeoutTasks timeoutFix 100) =
      checkTimeoutTasks timeoutFix 100 := by
  decide

/-- A submission payload carrying a negative timeout and negative retry
budget. -/
def invalidData : EventData :=
  { emptyData with timeout_seconds := some (-10), max_retries := some (-1) }

/-- A scheduler with no tasks and no agents. -/
def emptySchedState : SchedState :=
  { pending_tasks := [], running_tasks := [], completed_tasks := [],
    failed_tasks := [], agent_capabilities := [], event_subscriptions := [],
    load_balancing_enabled := true, published_events := [] }

/-- Counterexample to claim C6: a submission with an out-of-range priority
(−5, outside 1–10), a negative timeout and negative max_retries is not
rejected — no validation exists — and ends up as a PENDING task carrying the
invalid values. -/
theorem invalid_submission_accepted_cex :
    (submitTask "general" invalidData (-5) "uuid1").1 = "uuid1" ∧
    ((findTask (handleTaskCreated emptySchedState
          (submitTask "general" invalidData (-5) "uuid1").2 "uuid2" 50).pending_tasks
        "uuid1").map
        (fun t => (t.status, t.priority, t.timeout_seconds, t.max_retries)) =
      some (TaskStatus.pending, TaskPriority.low, -10, -1)) := by
  decide

/-- Claim C6 (amended): Submit performs no validation and never rejects. For
any submission whose payload does not itself carry a task_id key, it returns a
fresh task id, and the TaskCreated handler registers a task under that id in
status Pending, with the priority clamped through _safe_convert_priority and
the dataclass defaults for absent fields. -/
theorem submit_never_rejects (tt : String) (d : EventData) (p : Int)
    (u u2 : String) (s : SchedState) (now : Int)
    (hid : d.task_id = none) :
    (submitTask tt d p u).1 = u ∧
    findTask (handleTaskCreated s (submitTask tt d p u).2 u2 now).pending_tasks u =
      some { task_id := u
             task_type := d.task_type.getD tt
             priority := safeConvertPriority (d.priority.getD p)
             event_data := (submitTask tt d p u).2
             created_at := now
             assigned_agent := none
             status := TaskStatus.pending
             dependencies := d.dependencies.getD []
             max_retries := d.max_retries.getD 3
             retry_count := 0
             timeout_seconds := d.timeout_seconds.getD 300
             error_message := none
             started_at := none
             completed_at := none } := by
  refine ⟨rfl, ?_⟩
  unfold handleTaskCreated submitTask
  rw [hid]
  exact findTask_insertTask_self _ _ _ rfl

/-- Two ready tasks of equal priority, created at times 1 and 2. -/
def tEarly : ScheduleTask :=
  { task_id := "E", task_type := "general", priority := .normal,
    event_data := emptyData, created_at := 1, assigned_agent := none,
    status := .pending, dependencies := [], max_retries := 3,
    retry_count := 0, timeout_seconds := 300, error_message := none,
    started_at := none, completed_at := none }

def tLate : ScheduleTask :=
  { tEarly with task_id := "L", created_at := 2 }

def sortFix : SchedState :=
  { pending_tasks := [tEarly, tLate], running_tasks := [],
    completed_tasks := [], failed_tasks := [],
    agent_capabilities := [capA],
    event_subscriptions := [(.task_created, ["agent1"])],
    load_balancing_enabled := true, published_events := [] }

/-- Counterexample to claim C5: two ready tasks share priority, E is created
at time 1 and L at time 2, yet the scheduling pass orders L before E —
sorted(key=(priority, created_at), reverse=True) reverses the creation-time
component as well, so among equal priorities the later-created task is
offered a worker first. -/
theorem equal_priority_later_created_first_cex :
    tEarly.priority = tLate.priority ∧
    tEarly.created_at < tLate.created_at ∧
    sortedPending sortFix = [tLate, tEarly] := by
  refine ⟨rfl, by decide, ?_⟩
  simp [sortedPending, sortFix, List.mergeSort, taskSortGe, tEarly, tLate]

/-- Claim C5 (amended): in every scheduling tick the pending snapshot is a
permutation of the pending dictionary ordered by (priority descending,
createdAt descending): for any two positions i < j, either the later task has
strictly smaller priority, or equal priority and a creation time no later —
among equal priorities the later-created task comes first. -/
theorem pending_sort_order (s : SchedState) :
    (sortedPending s).Perm s.pending_tasks ∧
    (sortedPending s).Pairwise (fun a b =>
      b.priority.value < a.priority.value ∨
        (a.priority.value = b.priority.value ∧ b.created_at ≤ a.created_at)) := by
  constructor
  · exact List.mergeSort_perm s.pending_tasks taskSortGe
  · have hs : (sortedPending s).Pairwise (fun a b => taskSortGe a b = true) := by
      apply List.sorted_mergeSort
      · intro a b c hab hbc
        simp only [taskSortGe, decide_eq_true_eq] at hab hbc ⊢
        omega
      · intro a b
        simp only [taskSortGe, Bool.or_eq_true, decide_eq_true_eq]
        omega
    exact hs.imp (fun h => of_decide_eq_true h)

/-- Witness for the amended theorem of claim C6 at a concrete submission. -/
theorem submit_never_rejects_witness :
    emptyData.task_id = none ∧
    ((submitTask "general" emptyData 7 "uuidX").1 = "uuidX" ∧
     findTask (handleTaskCreated emptySchedState
         (submitTask "general" emptyData 7 "uuidX").2 "uuidY" 50).pending_tasks
         "uuidX" =
       some { task_id := "uuidX"
              task_type := emptyData.task_type.getD "general"
              priority := safeConvertPriority (emptyData.priority.getD 7)
              event_data := (submitTask "general" emptyData 7 "uuidX").2
              created_at := 50
              assigned_agent := none
              status := TaskStatus.pending
              dependencies := emptyData.dependencies.getD []
              max_retries := emptyData.max_retries.getD 3
              retry_count := 0
              timeout_seconds := emptyData.timeout_seconds.getD 300
              error_message := none
              started_at := none
              completed_at := none }) :=
  ⟨by decide,
   submit_never_rejects "general" emptyData 7 "uuidX" "uuidY" emptySchedState 50
     (by decide)⟩

/-- The per-worker invariant of claim C4. -/
def loadInv (caps : List AgentCapability) : Prop :=
  ∀ c ∈ caps, 0 ≤ c.current_load ∧ c.current_load ≤ c.max_concurrent_tasks

instance (caps : List AgentCapability) : Decidable (loadInv caps) := by
  unfold loadInv
  infer_instance

theorem lookupCap_mem (caps : List AgentCapability) (name : String)
    (c : AgentCapability) (h : lookupCap caps name = some c) : c ∈ caps :=
  List.mem_of_find?_eq_some h

theorem updateCap_loadInv (name : String)
    (f : AgentCapability → AgentCapability) :
    ∀ (caps : List AgentCapability), loadInv caps →
    (∀ c, lookupCap caps name = some c →
      0 ≤ (f c).current_load ∧
        (f c).current_load ≤ (f c).max_concurrent_tasks) →
    loadInv (updateCap caps name f) := by
  intro caps
  induction caps with
  | nil =>
    intro _ _ c hc
    simp [updateCap] at hc
  | cons c0 rest ih =>
    intro h hf
    simp only [updateCap]
    by_cases hn : (c0.agent_name == name) = true
    · rw [if_pos hn]
      intro c hc
      rcases List.mem_cons.mp hc with rfl | hcr
      · exact hf c0 (by simp [lookupCap, List.find?, hn])
      · exact h c (List.mem_cons_of_mem _ hcr)
    · rw [if_neg hn]
      intro c hc
      rcases List.mem_cons.mp hc with rfl | hcr
      · exact h c (List.mem_cons_self _ _)
      · refine ih (fun x hx => h x (List.mem_cons_of_mem _ hx)) ?_ c hcr
        intro x hx
        apply hf
        rw [Bool.not_eq_true] at hn
        simpa [lookupCap, List.find?, hn] using hx

theorem updateCap_dec_loadInv (caps : List AgentCapability) (name : String)
    (h : loadInv caps) :
    loadInv (updateCap caps name
      (fun c => { c with current_load := max 0 (c.current_load - 1) })) := by
  apply updateCap_loadInv name _ caps h
  intro c hc
  have hb := h c (lookupCap_mem caps name c hc)
  have hb1 := hb.1
  have hb2 := hb.2
  constructor
  · exact le_max_left 0 _
  · show max 0 (c.current_load - 1) ≤ c.max_concurrent_tasks
    exact max_le (by omega) (by omega)

theorem foldl_preserve {α σ : Type} (P : σ → Prop) (g : σ → α → σ)
    (hg : ∀ st x, P st → P (g st x)) :
    ∀ (l : List α) (s : σ), P s → P (l.foldl g s) := by
  intro l
  induction l with
  | nil => intro s hs; exact hs
  | cons x xs ih => intro s hs; exact ih (g s x) (hg s x hs)

theorem foldl_pick_mem {α : Type} (f : α → α → α)
    (hf : ∀ b x, f b x = b ∨ f b x = x) :
    ∀ (l : List α) (init : α), l.foldl f init = init ∨ l.foldl f init ∈ l := by
  intro l
  induction l with
  | nil => intro init; exact Or.inl rfl
  | cons x xs ih =>
    intro init
    rcases ih (f init x) with h | h
    · rcases hf init x with h2 | h2
      · left
        rw [List.foldl_cons, h, h2]
      · right
        rw [List.foldl_cons, h, h2]
        exact List.mem_cons_self x xs
    · right
      exact List.mem_cons_of_mem x h

theorem pickMinBy_mem (key : String → Int) (hd : String) (tl : List String) :
    pickMinBy key hd tl ∈ hd :: tl := by
  have hf : ∀ (b x : String),
      (if key x < key b then x else b) = b ∨
        (if key x < key b then x else b) = x := by
    intro b x
    by_cases h : key x < key b
    · right; rw [if_pos h]
    · left; rw [if_neg h]
  rcases foldl_pick_mem _ hf tl hd with h | h
  · rw [pickMinBy, h]; exact List.mem_cons_self _ _
  · exact List.mem_cons_of_mem _ h

theorem pickMaxBy_mem (key : String → ℚ) (hd : String) (tl : List String) :
    pickMaxBy key hd tl ∈ hd :: tl := by
  have hf : ∀ (b x : String),
      (if key b < key x then x else b) = b ∨
        (if key b < key x then x else b) = x := by
    intro b x
    by_cases h : key b < key x
    · right; rw [if_pos h]
    · left; rw [if_neg h]
  rcases foldl_pick_mem _ hf tl hd with h | h
  · rw [pickMaxBy, h]; exact List.mem_cons_self _ _
  · exact List.mem_cons_of_mem _ h

theorem findSuitableAgent_pred (s : SchedState) (t : ScheduleTask) (a : String)
    (h : findSuitableAgent s t = some a) : agentPred s a = true := by
  unfold findSuitableAgent at h
  cases hs : subscriptionsFor s (determineTaskEventType t) with
  | none => simp [hs] at h
  | some candidates =>
    simp only [hs] at h
    cases hfil : candidates.filter (agentPred s) with
    | nil => simp [hfil] at h
    | cons a0 rest =>
      simp only [hfil] at h
      have hmem : a ∈ a0 :: rest := by
        split at h
        · cases h; exact pickMinBy_mem (loadOf s) a0 rest
        · cases h; exact pickMaxBy_mem (rateOf s) a0 rest
      rw [← hfil] at hmem
      exact (List.mem_filter.mp hmem).2

theorem agentPred_cap (s : SchedState) (a : String)
    (h : agentPred s a = true) :
    ∃ c, lookupCap s.agent_capabilities a = some c ∧ c.is_available = true ∧
      c.current_load < c.max_concurrent_tasks := by
  unfold agentPred at h
  cases hc : lookupCap s.agent_capabilities a with
  | none => simp [hc] at h
  | some c =>
    simp only [hc, Bool.and_eq_true, decide_eq_true_eq] at h
    exact ⟨c, rfl, h.1, h.2⟩

theorem assignTask_loadInv (s : SchedState) (t : ScheduleTask) (agent : String)
    (now : Int) (h : loadInv s.agent_capabilities)
    (hp : agentPred s agent = true) :
    loadInv (assignTask s t agent now).agent_capabilities := by
  obtain ⟨c, hc, _hav, hlt⟩ := agentPred_cap s agent hp
  have hb := h c (lookupCap_mem _ _ _ hc)
  have hb1 := hb.1
  show loadInv (updateCap s.agent_capabilities agent
    (fun c => { c with current_load := c.current_load + 1, last_active := some now }))
  apply updateCap_loadInv _ _ _ h
  intro c0 hc0
  rw [hc] at hc0
  injection hc0 with e
  subst e
  constructor
  · show (0 : Int) ≤ c.current_load + 1
    omega
  · show c.current_load + 1 ≤ c.max_concurrent_tasks
    omega

theorem processOneTask_loadInv (st : SchedState) (t : ScheduleTask) (now : Int)
    (h : loadInv st.agent_capabilities) :
    loadInv (processOneTask st t now).agent_capabilities := by
  unfold processOneTask
  split
  · cases hfa : findSuitableAgent st t with
    | none => simpa [hfa] using h
    | some a =>
      simp only [hfa]
      exact assignTask_loadInv st t a now h (findSuitableAgent_pred st t a hfa)
  · exact h

theorem processPendingTasks_loadInv (s : SchedState) (now : Int)
    (h : loadInv s.agent_capabilities) :
    loadInv (processPendingTasks s now).agent_capabilities := by
  unfold processPendingTasks
  split
  · exact h
  · exact foldl_preserve (fun st => loadInv st.agent_capabilities) _
      (fun st x hx => processOneTask_loadInv st x now hx) _ s h

theorem timeoutOne_loadInv (now : Int) (st : SchedState) (t : ScheduleTask)
    (h : loadInv st.agent_capabilities) :
    loadInv (timeoutOne now st t).agent_capabilities := by
  unfold timeoutOne
  cases t.assigned_agent with
  | none => exact h
  | some a => exact updateCap_dec_loadInv st.agent_capabilities a h

theorem checkTimeoutTasks_loadInv (s : SchedState) (now : Int)
    (h : loadInv s.agent_capabilities) :
    loadInv (checkTimeoutTasks s now).agent_capabilities :=
  foldl_preserve (fun st => loadInv st.agent_capabilities) (timeoutOne now)
    (fun st x hx => timeoutOne_loadInv now st x hx) _ s h

theorem retryFailedTasks_loadInv (s : SchedState)
    (h : loadInv s.agent_capabilities) :
    loadInv (retryFailedTasks s).agent_capabilities := by
  unfold retryFailedTasks
  apply foldl_preserve (fun st => loadInv st.agent_capabilities) retryOne _ _ s h
  intro st x hx
  exact hx

theorem handleTaskCompleted_loadInv (s : SchedState) (d : EventData)
    (now : Int) (h : loadInv s.agent_capabilities) :
    loadInv (handleTaskCompleted s d now).agent_capabilities := by
  cases hid : extractTaskId d with
  | none => simpa [handleTaskCompleted, hid] using h
  | some tid =>
    cases hf : findTask s.running_tasks tid with
    | none => simpa [handleTaskCompleted, hid, hf] using h
    | some task =>
      simp only [handleTaskCompleted, hid, hf]
      rcases hst : d.status == some "failed" with _ | _ <;>
        rcases task.assigned_agent with _ | a <;>
          simp only [hst, resolveTaskDependencies, Bool.false_eq_true,
            if_false, if_true, reduceCtorEq] <;>
        first
          | exact h
          | exact updateCap_dec_loadInv _ _ h

/-- Claim C4: starting from any state in which every registered worker
satisfies 0 ≤ currentLoad ≤ maxConcurrency, each scheduler operation — the
assignment pass, the timeout sweep, the retry sweep and completion handling —
preserves the invariant, and an agent is only ever selected for assignment
while it is available with currentLoad strictly below maxConcurrency. -/
theorem worker_load_invariant (s : SchedState) (now : Int) (d : EventData)
    (h : loadInv s.agent_capabilities) :
    loadInv (processPendingTasks s now).agent_capabilities ∧
    loadInv (checkTimeoutTasks s now).agent_capabilities ∧
    loadInv (retryFailedTasks s).agent_capabilities ∧
    loadInv (handleTaskCompleted s d now).agent_capabilities ∧
    (∀ t a, findSuitableAgent s t = some a →
      ∃ c, lookupCap s.agent_capabilities a = some c ∧ c.is_available = true ∧
        c.current_load < c.max_concurrent_tasks) :=
  ⟨processPendingTasks_loadInv s now h, checkTimeoutTasks_loadInv s now h,
   retryFailedTasks_loadInv s h, handleTaskCompleted_loadInv s d now h,
   fun t a ha => agentPred_cap s a (findSuitableAgent_pred s t a ha)⟩

/-- Witness for the theorem of claim C4 at the concrete scheduler fixture. -/
theorem worker_load_invariant_witness :
    loadInv schedFix.agent_capabilities ∧
    (loadInv (processPendingTasks schedFix 100).agent_capabilities ∧
     loadInv (checkTimeoutTasks schedFix 100).agent_capabilities ∧
     loadInv (retryFailedTasks schedFix).agent_capabilities ∧
     loadInv (handleTaskCompleted schedFix failData 100).agent_capabilities ∧
     (∀ t a, findSuitableAgent schedFix t = some a →
       ∃ c, lookupCap schedFix.agent_capabilities a = some c ∧
         c.is_available = true ∧
         c.current_load < c.max_concurrent_tasks)) :=
  ⟨by decide, worker_load_invariant schedFix 100 failData (by decide)⟩

end Scheduler

end AgentMain
